import Mathlib

/-!
Verification of the AI-Therapy repository's text-analysis, user-profile,
session-state and response-orchestration layer, shallowly embedded in Lean.

JavaScript numbers are modelled as exact rationals.  The one reachable
non-finite value (the sentiment magnitude's 0/0 on wordless input, which is
NaN in JS) is modelled by the `JSNum` type below.  `Math.random()` draws are
modelled by explicit rational streams `Nat → ℚ` threaded to the functions
that consume them, indexed in call order.  The remote chat-completion
service is modelled by an explicit environment (`LlamaEnv`).
-/

/-- A JavaScript number that may be NaN.  In this codebase the only
division whose denominator can be 0 also has numerator 0 (JS: 0/0 = NaN),
so infinities never arise and are not modelled. -/
inductive JSNum where
  | nan : JSNum
  | val : ℚ → JSNum
deriving DecidableEq, Repr

/-- JS division as used here: denominator 0 yields NaN.  (Every call site
with a possibly-zero denominator also has a zero numerator there, so the JS
result is indeed NaN rather than ±Infinity.) -/
def jsDiv (a b : ℚ) : JSNum :=
  if b = 0 then JSNum.nan else JSNum.val (a / b)

def JSNum.add : JSNum → JSNum → JSNum
  | JSNum.val a, JSNum.val b => JSNum.val (a + b)
  | _, _ => JSNum.nan

def JSNum.mul : JSNum → JSNum → JSNum
  | JSNum.val a, JSNum.val b => JSNum.val (a * b)
  | _, _ => JSNum.nan

/-- JS `x > c` on a possibly-NaN number: NaN compares false. -/
def JSNum.gt : JSNum → ℚ → Bool
  | JSNum.nan, _ => false
  | JSNum.val a, c => decide (c < a)

/-! ## JavaScript string primitives

The texts this program manipulates are ASCII, so the regex classes are
embedded at their ASCII meaning: `\w` is letters, digits and underscore;
`\s` is blank characters; `[.!?]` are the sentence terminators. -/

def isWordChar (c : Char) : Bool := c.isAlphanum || c == '_'

def isWsChar (c : Char) : Bool := c == ' ' || c == '\t' || c == '\n' || c == '\r'

def isSentEnd (c : Char) : Bool := c == '.' || c == '!' || c == '?'

/-- Maximal runs of characters satisfying `p`: with `p = isWordChar` these
are exactly the matches of `/\b(\w+)\b/g` (a `null` match result in JS
becomes the empty list here). -/
def charRuns (p : Char → Bool) : List Char → List (List Char)
  | [] => []
  | c :: cs =>
    if p c then (c :: cs.takeWhile p) :: charRuns p (cs.dropWhile p)
    else charRuns p cs
termination_by l => l.length
decreasing_by
  · simp only [List.length_cons]
    have h := (List.dropWhile_sublist (l := cs) (p := p)).length_le
    omega
  · simp

/-- JS `String.prototype.split` on a regex matching maximal runs of `p`
characters: separators are such runs, and empty segments are produced at
the ends when the string starts or ends with a separator (`"".split` gives
`[""]`, i.e. `[[]]`). -/
def jsSplitAux (p : Char → Bool) : List Char → List Char → List (List Char)
  | [], acc => [acc.reverse]
  | c :: cs, acc =>
    if p c then acc.reverse :: jsSplitAux p (cs.dropWhile p) []
    else jsSplitAux p cs (c :: acc)
termination_by l _ => l.length
decreasing_by
  · simp only [List.length_cons]
    have h := (List.dropWhile_sublist (l := cs) (p := p)).length_le
    omega
  · simp

def lowerChars (l : List Char) : List Char := l.map Char.toLower

/-- JS `toLowerCase()` (ASCII). -/
def jsToLower (s : String) : String := String.mk (lowerChars s.data)

def listPrefixB : List Char → List Char → Bool
  | [], _ => true
  | _ :: _, [] => false
  | p :: ps, c :: cs => p == c && listPrefixB ps cs

def listSubB (pat : List Char) : List Char → Bool
  | [] => listPrefixB pat []
  | c :: cs => listPrefixB pat (c :: cs) || listSubB pat (cs)

/-- JS `s.includes(pat)`. -/
def jsIncludes (s pat : String) : Bool := listSubB pat.data s.data

/-- `text.toLowerCase().match(/\b(\w+)\b/g) || []`. -/
def jsWords (text : String) : List String :=
  (charRuns isWordChar (lowerChars text.data)).map String.mk

/-- `text.split(/\s+/)` with JS semantics (never the empty list). -/
def jsSplitWs (text : String) : List String :=
  (jsSplitAux isWsChar text.data []).map String.mk

def trimChars (l : List Char) : List Char :=
  ((l.dropWhile isWsChar).reverse.dropWhile isWsChar).reverse

/-- JS `s.trim()`. -/
def jsTrim (s : String) : String := String.mk (trimChars s.data)

/-- `text.split(/[.!?]+/)` before any filtering. -/
def jsSplitSentences (text : String) : List String :=
  (jsSplitAux isSentEnd text.data []).map String.mk

/-- `Array.prototype.slice(-n)`. -/
def takeLast {α : Type} (n : ℕ) (l : List α) : List α := l.drop (l.length - n)

/-- Insertion step of the stable descending sort modelling the JS
`sort((a, b) => keyOf b - keyOf a)` comparator. -/
def insertDescBy {α : Type} (key : α → ℚ) (x : α) : List α → List α
  | [] => [x]
  | y :: ys => if key x < key y then y :: insertDescBy key x ys else x :: y :: ys

/-- Stable descending sort by a rational key. -/
def sortDescBy {α : Type} (key : α → ℚ) : List α → List α
  | [] => []
  | x :: xs => insertDescBy key x (sortDescBy key xs)

/-! ## JS object-as-dictionary operations (insertion order preserved) -/

abbrev Dict := List (String × ℚ)

/-- `obj[k]`: `none` models `undefined`. -/
def dictGet (d : Dict) (k : String) : Option ℚ :=
  (d.find? (fun p => p.1 == k)).map (·.2)

/-- `obj[k] = v`: updates in place when the key exists (keys of this
program's dictionaries are unique), appends otherwise. -/
def dictSet (d : Dict) (k : String) (v : ℚ) : Dict :=
  if (d.find? (fun p => p.1 == k)).isSome then
    d.map (fun p => if p.1 == k then (k, v) else p)
  else d ++ [(k, v)]

/-- JS truth test `!obj[k]` on a dictionary read: `undefined` and `0` are
falsy. -/
def jsFalsyLookup (o : Option ℚ) : Bool :=
  match o with
  | none => true
  | some q => q == 0

/-! ## nlpUtils: data model (src/utils/nlpUtils.ts) -/

namespace nlpUtils

inductive SentimentLabel where
  | very_negative | negative | neutral | positive | very_positive
deriving DecidableEq, Repr

structure SentimentAnalysis where
  score : ℚ
  magnitude : JSNum
  label : SentimentLabel
deriving DecidableEq, Repr

structure EntityAnalysis where
  name : String
  type : String
  salience : ℚ
  mentions : ℕ
deriving DecidableEq, Repr

structure KeyPhraseAnalysis where
  phrase : String
  score : ℚ
deriving DecidableEq, Repr

/-- The emotion dictionary produced by `detectEmotions`: it always holds
exactly these eight keys (the initial object literal's insertion order is
anxiety, sadness, anger, fear, joy, surprise, disgust, trust), so it is
embedded as a record. -/
structure Emotions where
  anxiety : ℚ
  sadness : ℚ
  anger : ℚ
  fear : ℚ
  joy : ℚ
  surprise : ℚ
  disgust : ℚ
  trust : ℚ
deriving DecidableEq, Repr

/-- `Object.entries(emotions)` in the dictionary's insertion order. -/
def emotionEntries (e : Emotions) : List (String × ℚ) :=
  [("anxiety", e.anxiety), ("sadness", e.sadness), ("anger", e.anger),
   ("fear", e.fear), ("joy", e.joy), ("surprise", e.surprise),
   ("disgust", e.disgust), ("trust", e.trust)]

structure PersonalityTraits where
  openness : ℚ
  conscientiousness : ℚ
  extraversion : ℚ
  agreeableness : ℚ
  neuroticism : ℚ
deriving DecidableEq, Repr

structure CommunicationStyle where
  verbose : ℚ
  emotional : ℚ
  analytical : ℚ
  concrete : ℚ
  abstract : ℚ
deriving DecidableEq, Repr

structure LearningHistory where
  topicsDiscussed : List String
  insightsGained : List String
  techniquesLearned : List String
deriving DecidableEq, Repr

structure UserProfile where
  personalityTraits : PersonalityTraits
  values : Dict
  interests : Dict
  concerns : Dict
  communicationStyle : CommunicationStyle
  learningHistory : LearningHistory
deriving DecidableEq, Repr

structure NLPAnalysisResult where
  sentiment : SentimentAnalysis
  entities : List EntityAnalysis
  keyPhrases : List KeyPhraseAnalysis
  tokenCount : ℕ
  complexity : ℚ
  topics : List String
  emotions : Emotions
deriving DecidableEq, Repr

def createInitialUserProfile : UserProfile where
  personalityTraits :=
    { openness := 0.5, conscientiousness := 0.5, extraversion := 0.5,
      agreeableness := 0.5, neuroticism := 0.5 }
  values := []
  interests := []
  concerns := []
  communicationStyle :=
    { verbose := 0.5, emotional := 0.5, analytical := 0.5,
      concrete := 0.5, abstract := 0.5 }
  learningHistory :=
    { topicsDiscussed := [], insightsGained := [], techniquesLearned := [] }

/-! ## nlpUtils: sentiment -/

def positiveWords : List String :=
  ["good", "great", "happy", "positive", "excellent", "wonderful", "joy",
   "love", "hope", "excited", "grateful", "thankful", "appreciate",
   "better", "calm", "peaceful", "relaxed", "confident", "proud"]

def negativeWords : List String :=
  ["bad", "sad", "angry", "negative", "terrible", "horrible", "awful",
   "hate", "fear", "worried", "anxious", "depressed", "stressed",
   "worse", "upset", "frustrated", "annoyed", "disappointed", "hurt"]

def intensifiers : List String :=
  ["very", "extremely", "incredibly", "really", "so", "absolutely",
   "completely", "totally", "utterly", "thoroughly"]

def sentimentLabelOf (score : ℚ) : SentimentLabel :=
  if score ≤ -0.6 then SentimentLabel.very_negative
  else if score ≤ -0.2 then SentimentLabel.negative
  else if score ≥ 0.6 then SentimentLabel.very_positive
  else if score ≥ 0.2 then SentimentLabel.positive
  else SentimentLabel.neutral

def analyzeSentiment (text : String) : SentimentAnalysis :=
  let words := jsWords text
  let positiveCount := (words.filter (fun w => positiveWords.contains w)).length
  let negativeCount := (words.filter (fun w => negativeWords.contains w)).length
  let intensifierCount := (words.filter (fun w => intensifiers.contains w)).length
  let totalSentimentWords := positiveCount + negativeCount
  let score : ℚ :=
    if totalSentimentWords = 0 then 0
    else ((positiveCount : ℚ) - (negativeCount : ℚ)) / (totalSentimentWords : ℚ)
  let magnitude :=
    JSNum.mul (jsDiv (totalSentimentWords : ℚ) (words.length : ℚ))
      (JSNum.add (JSNum.val 1) (jsDiv (intensifierCount : ℚ) (words.length : ℚ)))
  { score := score, magnitude := magnitude, label := sentimentLabelOf score }

/-! ## nlpUtils: entities

The source also builds a `wordFrequency` table that is never read
afterwards (dead code); it is omitted.  A match of `/\b[A-Z][a-z]+\b/g`
over `\w`-class content is exactly a maximal `\w`-run of the shape
`[A-Z][a-z]+` (the boundary assertions forbid any shorter or longer match
inside a run), and such a run always has length > 1, so the source's
`noun.length > 1` test is always true on matches. -/

def properNouns (text : String) : List String :=
  (charRuns isWordChar text.data).filterMap (fun run =>
    match run with
    | [] => none
    | c :: rest =>
      if c.isUpper && !rest.isEmpty && rest.all Char.isLower then
        some (String.mk (c :: rest))
      else none)

/-- One iteration of the `properNouns.forEach` accumulation: bump the
case-insensitively matching entity or append a fresh one.  Entity names are
pairwise distinct case-insensitively (a duplicate is never appended), so
updating every matching entry equals updating the found one. -/
def addNoun (entities : List EntityAnalysis) (noun : String) : List EntityAnalysis :=
  if entities.any (fun e => jsToLower e.name == jsToLower noun) then
    entities.map (fun e =>
      if jsToLower e.name == jsToLower noun then
        { e with mentions := e.mentions + 1, salience := min (e.salience + 0.1) 1 }
      else e)
  else entities ++ [{ name := noun, type := "PERSON", salience := 0.5, mentions := 1 }]

def extractEntities (text : String) : List EntityAnalysis :=
  let entities := (properNouns text).foldl addNoun []
  (sortDescBy (fun e => (e.mentions : ℚ)) entities).take 5

/-! ## nlpUtils: key phrases (the one randomized analysis output) -/

/-- `extractKeyPhrases`; `rand i` is the `Math.random()` draw of the `i`-th
pushed phrase, in push order. -/
def extractKeyPhrases (rand : ℕ → ℚ) (text : String) : List KeyPhraseAnalysis :=
  let sentences := (jsSplitSentences text).filter (fun s => !(jsTrim s == ""))
  let qualifying := sentences.filter (fun s =>
    let words := jsSplitWs (jsTrim s)
    3 ≤ words.length && words.length ≤ 10)
  let phrases := qualifying.enum.map (fun p =>
    { phrase := jsTrim p.2, score := 0.5 + rand p.1 * 0.3 : KeyPhraseAnalysis })
  (sortDescBy (fun p => p.score) phrases).take 3

/-! ## nlpUtils: emotions -/

def anxietyWords : List String :=
  ["anxious", "nervous", "worry", "stress", "overwhelm", "panic", "afraid", "uneasy"]
def sadnessWords : List String :=
  ["sad", "depressed", "unhappy", "miserable", "heartbroken", "down", "blue", "grief"]
def angerWords : List String :=
  ["angry", "mad", "furious", "irritated", "annoyed", "frustrated", "enraged", "hostile"]
def fearWords : List String :=
  ["scared", "afraid", "terrified", "frightened", "fearful", "panicked", "alarmed"]
def joyWords : List String :=
  ["happy", "joyful", "excited", "delighted", "pleased", "glad", "cheerful", "content"]
def surpriseWords : List String :=
  ["surprised", "shocked", "amazed", "astonished", "stunned", "unexpected"]
def disgustWords : List String :=
  ["disgusted", "revolted", "repulsed", "sickened", "appalled", "horrified"]
def trustWords : List String :=
  ["trust", "believe", "confident", "faith", "assured", "certain", "reliance"]

/-- Per-emotion accumulation: +0.2 for each keyword the lowercased text
includes, capped at 1.0 afterwards. -/
def emotionScore (lowerText : String) (ws : List String) : ℚ :=
  min (ws.foldl (fun acc w => if jsIncludes lowerText w then acc + 0.2 else acc) 0) 1

def detectEmotions (text : String) : Emotions :=
  let lowerText := jsToLower text
  { anxiety := emotionScore lowerText anxietyWords
    sadness := emotionScore lowerText sadnessWords
    anger := emotionScore lowerText angerWords
    fear := emotionScore lowerText fearWords
    joy := emotionScore lowerText joyWords
    surprise := emotionScore lowerText surpriseWords
    disgust := emotionScore lowerText disgustWords
    trust := emotionScore lowerText trustWords }

/-! ## nlpUtils: topics -/

def topicKeywords : List (String × List String) :=
  [("work", ["work", "job", "career", "boss", "office", "colleague", "profession", "employment"]),
   ("relationships", ["relationship", "partner", "marriage", "dating", "spouse", "boyfriend", "girlfriend"]),
   ("family", ["family", "parent", "child", "mother", "father", "sister", "brother", "son", "daughter"]),
   ("health", ["health", "illness", "disease", "doctor", "hospital", "pain", "symptom", "diagnosis"]),
   ("mental health", ["anxiety", "depression", "therapy", "counseling", "mental", "psychiatrist", "psychologist"]),
   ("finance", ["money", "finance", "debt", "budget", "saving", "expense", "income", "investment"]),
   ("education", ["school", "college", "university", "degree", "study", "learn", "education", "student"]),
   ("housing", ["home", "house", "apartment", "rent", "mortgage", "roommate", "living situation"]),
   ("self-improvement", ["goal", "improvement", "growth", "development", "progress", "better", "skill"]),
   ("social life", ["friend", "social", "party", "gathering", "community", "connection", "loneliness"])]

def extractTopics (text : String) : List String :=
  let lowerText := jsToLower text
  (topicKeywords.filter (fun tk => tk.2.any (fun kw => jsIncludes lowerText kw))).map (·.1)

/-! ## nlpUtils: analyzeText -/

/-- `analyzeText`; `rand` feeds the key-phrase scoring, the only random
draw in the analysis.  The `words.length` denominators are never zero:
`split(/\s+/)` always returns at least one (possibly empty) token, and the
sentence count is guarded by `|| 1` in the source. -/
def analyzeText (rand : ℕ → ℚ) (text : String) : NLPAnalysisResult :=
  let sentiment := analyzeSentiment text
  let entities := extractEntities text
  let keyPhrases := extractKeyPhrases rand text
  let emotions := detectEmotions text
  let words := jsSplitWs text
  let avgWordLength : ℚ := ((words.map String.length).sum : ℚ) / (words.length : ℚ)
  let sentences := (jsSplitSentences text).filter (fun s => !(jsTrim s == ""))
  let sentenceCount : ℕ := if sentences.length = 0 then 1 else sentences.length
  let avgSentenceLength : ℚ := (words.length : ℚ) / (sentenceCount : ℚ)
  let complexity : ℚ :=
    min (((avgWordLength - 3) / 3) * 0.5 + ((avgSentenceLength - 5) / 15) * 0.5) 1
  { sentiment := sentiment
    entities := entities
    keyPhrases := keyPhrases
    tokenCount := words.length
    complexity := max 0 complexity
    topics := extractTopics text
    emotions := emotions }

end nlpUtils

/-! ## nlpUtils: profile update -/

namespace nlpUtils

/-- `weightedAverage(currentValue, newValue, weight = 0.3)`; every call in
the repository uses the default weight. -/
def weightedAverage (currentValue newValue : ℚ) : ℚ :=
  currentValue * (1 - 0.3) + newValue * 0.3

/-- The negative-emotion names whose intensities feed the concerns map. -/
def concernEmotions : List String :=
  ["anxiety", "sadness", "anger", "fear", "disgust"]

/-- Verbosity target: the 3-bucket step function of the token count. -/
def verboseTarget (textAnalysis : NLPAnalysisResult) : ℚ :=
  if textAnalysis.tokenCount > 100 then 0.8
  else if textAnalysis.tokenCount > 50 then 0.5 else 0.2

/-- Emotionality target: the 3-bucket step function of the sentiment
magnitude (a NaN magnitude compares false on both thresholds). -/
def emotionalTarget (textAnalysis : NLPAnalysisResult) : ℚ :=
  if textAnalysis.sentiment.magnitude.gt 0.7 then 0.8
  else if textAnalysis.sentiment.magnitude.gt 0.3 then 0.5 else 0.2

/-- Analytical target: the 3-bucket step function of the complexity. -/
def analyticalTarget (textAnalysis : NLPAnalysisResult) : ℚ :=
  if textAnalysis.complexity > 0.7 then 0.8
  else if textAnalysis.complexity > 0.4 then 0.5 else 0.2

/-- The communication-style update of `updateUserProfile`. -/
def updateStyle (cs : CommunicationStyle) (textAnalysis : NLPAnalysisResult) :
    CommunicationStyle :=
  { cs with
    verbose := weightedAverage cs.verbose (verboseTarget textAnalysis)
    emotional := weightedAverage cs.emotional (emotionalTarget textAnalysis)
    analytical := weightedAverage cs.analytical (analyticalTarget textAnalysis) }

/-- One iteration of the interests update: seed an unseen (or zero) topic
at 0.6, blend a seen one toward 0.8. -/
def interestsStep (d : Dict) (topic : String) : Dict :=
  if jsFalsyLookup (dictGet d topic) then dictSet d topic 0.6
  else dictSet d topic (weightedAverage ((dictGet d topic).getD 0) 0.8)

/-- One iteration of the concerns update over `Object.entries(emotions)`:
an intensity above 0.5 on a negative emotion is seeded as-is (or, when
already present and nonzero, blended in). -/
def concernsStep (d : Dict) (entry : String × ℚ) : Dict :=
  if entry.2 > 0.5 && concernEmotions.contains entry.1 then
    if jsFalsyLookup (dictGet d entry.1) then dictSet d entry.1 entry.2
    else dictSet d entry.1 (weightedAverage ((dictGet d entry.1).getD 0) entry.2)
  else d

/-- The personality-traits update of `updateUserProfile`: on a strongly
positive score, blend extraversion and agreeableness toward 0.6; on high
complexity, blend openness toward 0.7. -/
def updateTraits (pt : PersonalityTraits) (textAnalysis : NLPAnalysisResult) :
    PersonalityTraits :=
  let pt1 :=
    if textAnalysis.sentiment.score > 0.5 then
      { pt with
        extraversion := weightedAverage pt.extraversion 0.6
        agreeableness := weightedAverage pt.agreeableness 0.6 }
    else pt
  if textAnalysis.complexity > 0.6 then
    { pt1 with openness := weightedAverage pt1.openness 0.7 }
  else pt1

/-- One iteration of the learning-history update: push a topic not yet
discussed. -/
def topicsDiscussedStep (l : List String) (topic : String) : List String :=
  if l.contains topic then l else l ++ [topic]

/-- Value-level semantics of `updateUserProfile`: the field values of the
object the function returns.  (The source's `{ ...currentProfile }` is a
shallow copy whose nested objects stay shared with the argument; that
aliasing is modelled separately by `updateUserProfileHeap` below.  Each
nested field is read once, before it is written, so the returned values are
as translated here.)  The `userText` parameter is unused in the source. -/
def updateUserProfile (currentProfile : UserProfile)
    (textAnalysis : NLPAnalysisResult) (userText : String) : UserProfile :=
  let _ := userText
  { currentProfile with
    communicationStyle := updateStyle currentProfile.communicationStyle textAnalysis
    interests := textAnalysis.topics.foldl interestsStep currentProfile.interests
    concerns := (emotionEntries textAnalysis.emotions).foldl concernsStep
      currentProfile.concerns
    personalityTraits := updateTraits currentProfile.personalityTraits textAnalysis
    learningHistory :=
      { currentProfile.learningHistory with
        topicsDiscussed := textAnalysis.topics.foldl topicsDiscussedStep
          currentProfile.learningHistory.topicsDiscussed } }

end nlpUtils

/-! ## nlpUtils: reference-level (heap) semantics of updateUserProfile

In the source a `UserProfile` is a JS object whose five nested containers
(personalityTraits, values, interests, concerns, communicationStyle,
learningHistory) are themselves heap objects reached by reference.
`updateUserProfile` begins with `const updatedProfile = { ...currentProfile }`,
a shallow copy: the copy holds the same references, and the subsequent
property assignments write through them.  The heap model makes those
references explicit so that what the caller's object observes after the
call can be stated. -/

namespace nlpUtils

structure ProfileRefs where
  personalityTraitsRef : ℕ
  valuesRef : ℕ
  interestsRef : ℕ
  concernsRef : ℕ
  communicationStyleRef : ℕ
  learningHistoryRef : ℕ
deriving DecidableEq, Repr

structure ProfileHeap where
  personalityTraitsAt : ℕ → PersonalityTraits
  valuesAt : ℕ → Dict
  interestsAt : ℕ → Dict
  concernsAt : ℕ → Dict
  communicationStyleAt : ℕ → CommunicationStyle
  learningHistoryAt : ℕ → LearningHistory

def writeCS (h : ProfileHeap) (r : ℕ) (v : CommunicationStyle) : ProfileHeap :=
  { h with communicationStyleAt := fun n => if n = r then v else h.communicationStyleAt n }

def writeInterests (h : ProfileHeap) (r : ℕ) (v : Dict) : ProfileHeap :=
  { h with interestsAt := fun n => if n = r then v else h.interestsAt n }

def writeConcerns (h : ProfileHeap) (r : ℕ) (v : Dict) : ProfileHeap :=
  { h with concernsAt := fun n => if n = r then v else h.concernsAt n }

def writePT (h : ProfileHeap) (r : ℕ) (v : PersonalityTraits) : ProfileHeap :=
  { h with personalityTraitsAt := fun n => if n = r then v else h.personalityTraitsAt n }

def writeLH (h : ProfileHeap) (r : ℕ) (v : LearningHistory) : ProfileHeap :=
  { h with learningHistoryAt := fun n => if n = r then v else h.learningHistoryAt n }

/-- `updateUserProfile` with JS reference semantics.  The returned
`ProfileRefs` is the spread copy (same references); every field assignment
of the source is a heap write through the shared reference. -/
def updateUserProfileHeap (h : ProfileHeap) (currentProfile : ProfileRefs)
    (textAnalysis : NLPAnalysisResult) (userText : String) :
    ProfileHeap × ProfileRefs :=
  let _ := userText
  let updatedProfile := currentProfile
  let csRef := updatedProfile.communicationStyleRef
  let h1 := writeCS h csRef
    { h.communicationStyleAt csRef with
      verbose := weightedAverage ((h.communicationStyleAt csRef).verbose)
        (verboseTarget textAnalysis) }
  let h2 := writeCS h1 csRef
    { h1.communicationStyleAt csRef with
      emotional := weightedAverage ((h1.communicationStyleAt csRef).emotional)
        (emotionalTarget textAnalysis) }
  let h3 := writeCS h2 csRef
    { h2.communicationStyleAt csRef with
      analytical := weightedAverage ((h2.communicationStyleAt csRef).analytical)
        (analyticalTarget textAnalysis) }
  let intRef := updatedProfile.interestsRef
  let h4 := textAnalysis.topics.foldl (fun hh topic =>
    writeInterests hh intRef (interestsStep (hh.interestsAt intRef) topic))
    h3
  let concRef := updatedProfile.concernsRef
  let h5 := (emotionEntries textAnalysis.emotions).foldl (fun hh entry =>
    writeConcerns hh concRef (concernsStep (hh.concernsAt concRef) entry))
    h4
  let ptRef := updatedProfile.personalityTraitsRef
  let h6 :=
    if textAnalysis.sentiment.score > 0.5 then
      let pt := h5.personalityTraitsAt ptRef
      let h5a := writePT h5 ptRef { pt with extraversion := weightedAverage pt.extraversion 0.6 }
      let pt' := h5a.personalityTraitsAt ptRef
      writePT h5a ptRef { pt' with agreeableness := weightedAverage pt'.agreeableness 0.6 }
    else h5
  let h7 :=
    if textAnalysis.complexity > 0.6 then
      let pt := h6.personalityTraitsAt ptRef
      writePT h6 ptRef { pt with openness := weightedAverage pt.openness 0.7 }
    else h6
  let lhRef := updatedProfile.learningHistoryRef
  let h8 := textAnalysis.topics.foldl (fun hh topic =>
    writeLH hh lhRef
      { hh.learningHistoryAt lhRef with
        topicsDiscussed := topicsDiscussedStep (hh.learningHistoryAt lhRef).topicsDiscussed topic })
    h7
  (h8, updatedProfile)

/-- A heap holding one freshly created initial profile, all of whose
nested-object references are cell 0 of their type's store. -/
def initialProfileHeap : ProfileHeap :=
  { personalityTraitsAt := fun _ => createInitialUserProfile.personalityTraits
    valuesAt := fun _ => []
    interestsAt := fun _ => []
    concernsAt := fun _ => []
    communicationStyleAt := fun _ => createInitialUserProfile.communicationStyle
    learningHistoryAt := fun _ => createInitialUserProfile.learningHistory }

def initialProfileRefs : ProfileRefs :=
  { personalityTraitsRef := 0, valuesRef := 0, interestsRef := 0,
    concernsRef := 0, communicationStyleRef := 0, learningHistoryRef := 0 }

end nlpUtils

/-! ## apiUtils: crisis detection (src/utils/apiUtils.ts) -/

namespace apiUtils

def crisisKeywords : List String :=
  ["suicide", "kill myself", "end my life", "want to die",
   "harm myself", "hurt myself", "self-harm",
   "no reason to live", "better off dead"]

/-- `containsCrisisIndicators`: any crisis keyword is a substring of the
lowercased text. -/
def containsCrisisIndicators (text : String) : Bool :=
  let lowerText := jsToLower text
  crisisKeywords.any (fun keyword => jsIncludes lowerText keyword)

end apiUtils

/-! ## llamaApiUtils (src/utils/llamaApiUtils.ts) -/

namespace llamaApiUtils

structure LlamaMessage where
  role : String
  content : String
deriving DecidableEq, Repr

structure LlamaChoice where
  content : String
deriving DecidableEq, Repr

/-- The parsed response body as far as the code consumes it
(`data.choices[i].message.content`). -/
structure LlamaApiResponse where
  choices : List LlamaChoice
deriving DecidableEq, Repr

/-- What one call to `fetch` can produce: `ok`/`status` of the HTTP
response, its text body, and the result of `response.json()` (`none` when
parsing rejects). -/
structure FetchResponse where
  ok : Bool
  status : ℕ
  bodyText : String
  json : Option LlamaApiResponse

/-- The environment a `sendLlamaRequest` call runs against: the configured
API key (`none` models an unset `VITE_LLAMA_API_KEY`) and the network's
reply to the posted conversation (`none` models a rejected fetch). -/
structure LlamaEnv where
  apiKey : Option String
  fetchOutcome : List LlamaMessage → Option FetchResponse

/-- JS falsiness of the `LLAMA_API_KEY` string: `undefined` and `""`. -/
def keyFalsy : Option String → Bool
  | none => true
  | some s => s == ""

def fallbackMessage : String :=
  "I apologize, but I encountered an issue processing your request. Please try again."

def createTherapySystemPrompt : String :=
  "You are an AI Therapy Assistant designed to provide supportive, empathetic responses.\nYour goal is to help users explore their thoughts and feelings in a safe space.\n\nGuidelines:\n- Respond with empathy and without judgment\n- Ask thoughtful follow-up questions to encourage reflection\n- Provide evidence-based insights when appropriate\n- Recognize emotional states and respond accordingly\n- Suggest coping strategies and resources when helpful\n- Never diagnose medical or psychological conditions\n- Maintain a warm, supportive tone throughout the conversation\n- If the user is in crisis, encourage them to seek professional help\n\nRemember that your purpose is to support the user's emotional wellbeing through conversation,\nnot to replace professional mental health care."

/-- The conversation posted to the API: the optional system message
followed by the caller's messages. -/
def conversationHistoryOf (systemPrompt : Option String)
    (messages : List LlamaMessage) : List LlamaMessage :=
  (match systemPrompt with
   | some s => [{ role := "system", content := s : LlamaMessage }]
   | none => []) ++ messages

/-- The `try` block of `sendLlamaRequest`: `Except.error` is a thrown
exception (or rejected await) inside the block. -/
def sendLlamaRequestBody (env : LlamaEnv) (messages : List LlamaMessage)
    (systemPrompt : Option String) : Except String String :=
  if keyFalsy env.apiKey then
    Except.error "API key not found. Please set the VITE_LLAMA_API_KEY environment variable."
  else
    let conversationHistory := conversationHistoryOf systemPrompt messages
    match env.fetchOutcome conversationHistory with
    | none => Except.error "fetch rejected (network failure)"
    | some response =>
      if !response.ok then
        Except.error ("API request failed: " ++ toString response.status ++ " - " ++ response.bodyText)
      else
        match response.json with
        | none => Except.error "response.json() rejected (malformed body)"
        | some data =>
          match data.choices with
          | choice :: _ => Except.ok choice.content
          | [] => Except.error "No response from the model"

/-- `sendLlamaRequest`: the surrounding `catch` converts every failure into
the fixed fallback string, so the promise always resolves (`Except.ok`). -/
def sendLlamaRequest (env : LlamaEnv) (messages : List LlamaMessage)
    (systemPrompt : Option String) : Except String String :=
  match sendLlamaRequestBody env messages systemPrompt with
  | Except.ok s => Except.ok s
  | Except.error _ => Except.ok fallbackMessage

end llamaApiUtils

/-! ## therapistUtils (src/utils/therapistUtils.ts) -/

namespace therapistUtils

inductive TherapyApproach where
  | cbt | mindfulness | supportive | solutionFocused | existential
deriving DecidableEq, Repr

inductive EmotionCategory where
  | anxiety | depression | anger | grief | joy | confusion | neutral
deriving DecidableEq, Repr

structure TherapySessionState where
  dominantEmotions : List EmotionCategory
  recentTopics : List String
  approachUsed : List TherapyApproach
  questionTypes : List String
  sessionDepth : ℕ
  crisisDetected : Bool
  lastQuestionType : String
  userInsights : List String
  userProfile : nlpUtils.UserProfile
  lastAnalysis : Option nlpUtils.NLPAnalysisResult
deriving DecidableEq, Repr

def createInitialSessionState : TherapySessionState where
  dominantEmotions := [EmotionCategory.neutral]
  recentTopics := []
  approachUsed := [TherapyApproach.supportive]
  questionTypes := []
  sessionDepth := 0
  crisisDetected := false
  lastQuestionType := "opening"
  userInsights := []
  userProfile := nlpUtils.createInitialUserProfile
  lastAnalysis := none

def griefIndicators : List String :=
  ["grief", "loss", "miss", "gone", "died", "death"]

/-- therapistUtils' `detectEmotions`: maps the NLP emotion intensities to
therapy emotion categories.  It calls `analyzeText` afresh, so it takes its
own random stream. -/
def detectEmotions (rand : ℕ → ℚ) (text : String) : List EmotionCategory :=
  let analysis := nlpUtils.analyzeText rand text
  let emotions := analysis.emotions
  let lowerText := jsToLower text
  let base :=
    (if emotions.anxiety > 0.4 then [EmotionCategory.anxiety] else []) ++
    (if emotions.sadness > 0.4 then [EmotionCategory.depression] else []) ++
    (if emotions.anger > 0.4 then [EmotionCategory.anger] else []) ++
    (if emotions.joy > 0.4 then [EmotionCategory.joy] else [])
  let withGrief :=
    if griefIndicators.any (fun w => jsIncludes lowerText w) then
      base ++ [EmotionCategory.grief]
    else base
  let withConfusion :=
    if emotions.surprise > 0.4 || jsIncludes lowerText "confus" || jsIncludes lowerText "unsure" then
      withGrief ++ [EmotionCategory.confusion]
    else withGrief
  if withConfusion.isEmpty then [EmotionCategory.neutral] else withConfusion

/-- `detectCrisis` delegates to apiUtils. -/
def detectCrisis (text : String) : Bool :=
  apiUtils.containsCrisisIndicators text

/-- therapistUtils' `extractTopics` calls `analyzeText` afresh and projects
its topics, so it takes its own random stream. -/
def extractTopics (rand : ℕ → ℚ) (text : String) : List String :=
  (nlpUtils.analyzeText rand text).topics

/-- `updateSessionState`.  The three random streams feed, in order, the
`analyzeText` call, the `detectEmotions` call and the `extractTopics` call
(each performs its own key-phrase scoring draws; none of those draws
affects any field this function stores except `lastAnalysis.keyPhrases`). -/
def updateSessionState (r1 r2 r3 : ℕ → ℚ)
    (currentState : TherapySessionState) (userInput : String) : TherapySessionState :=
  let textAnalysis := nlpUtils.analyzeText r1 userInput
  let updatedProfile := nlpUtils.updateUserProfile currentState.userProfile textAnalysis userInput
  let emotions := detectEmotions r2 userInput
  let isCrisis := detectCrisis userInput
  let topics := extractTopics r3 userInput
  let approach : List TherapyApproach :=
    if emotions.contains EmotionCategory.anxiety then
      [TherapyApproach.cbt, TherapyApproach.mindfulness]
    else if emotions.contains EmotionCategory.depression then
      [TherapyApproach.cbt, TherapyApproach.supportive]
    else if emotions.contains EmotionCategory.grief then
      [TherapyApproach.supportive, TherapyApproach.existential]
    else if emotions.contains EmotionCategory.confusion then
      [TherapyApproach.solutionFocused, TherapyApproach.existential]
    else
      [TherapyApproach.supportive, TherapyApproach.solutionFocused]
  { currentState with
    dominantEmotions := emotions
    crisisDetected := isCrisis
    sessionDepth := currentState.sessionDepth + 1
    userProfile := updatedProfile
    lastAnalysis := some textAnalysis
    recentTopics := (topics ++ currentState.recentTopics).take 3
    approachUsed := approach }

end therapistUtils

/-! ## therapistUtils: resources

Each generator consumes exactly one `Math.random()` draw, passed as an
explicit rational `r`.  `Math.floor(r * length)` is in range for every real
draw (`r ∈ [0,1)`); an out-of-range rational, impossible for a real draw,
defaults to the list's first element. -/

namespace therapistUtils

inductive ResourceType where
  | quote | breathing | mindfulness | coping | resource
deriving DecidableEq, Repr

structure Resource where
  type : ResourceType
  content : String
  title : Option String
  source : Option String
  url : Option String
deriving DecidableEq, Repr

/-- `array[Math.floor(r * array.length)]`. -/
def jsArrayPick {α : Type} (l : List α) (dflt : α) (r : ℚ) : α :=
  l.getD (Int.floor (r * (l.length : ℚ))).toNat dflt

def quotes : List (String × String) :=
  [("You don't have to control your thoughts. You just have to stop letting them control you.", "Dan Millman"),
   ("You are not your illness. You have an individual story to tell. You have a name, a history, a personality. Staying yourself is part of the battle.", "Julian Seifter"),
   ("There is hope, even when your brain tells you there isn't.", "John Green"),
   ("Promise me you'll always remember: You're braver than you believe, stronger than you seem, and smarter than you think.", "A.A. Milne"),
   ("You are not a drop in the ocean. You are the entire ocean in a drop.", "Rumi"),
   ("The greatest glory in living lies not in never falling, but in rising every time we fall.", "Nelson Mandela"),
   ("Your present circumstances don't determine where you can go; they merely determine where you start.", "Nido Qubein"),
   ("Nothing is impossible. The word itself says 'I'm possible!'", "Audrey Hepburn"),
   ("In the middle of difficulty lies opportunity.", "Albert Einstein"),
   ("Self-care is not self-indulgence, it is self-preservation.", "Audre Lorde"),
   ("You are allowed to take up space. You are allowed to have a voice. You are allowed to tell people how you feel.", "Megan Jayne Crabbe"),
   ("The way I see it, if you want the rainbow, you gotta put up with the rain.", "Dolly Parton"),
   ("Sometimes the bravest and most important thing you can do is just show up.", "Brené Brown"),
   ("What mental health needs is more sunlight, more candor, and more unashamed conversation.", "Glenn Close"),
   ("Happiness can be found even in the darkest of times, if one only remembers to turn on the light.", "J.K. Rowling")]

def generateQuote (r : ℚ) : Resource :=
  let q := jsArrayPick quotes ("", "") r
  { type := ResourceType.quote, content := q.1, title := none, source := some q.2, url := none }

def breathingExercises : List (String × String) :=
  [("4-7-8 Breathing", "Find a comfortable position. Inhale quietly through your nose for 4 seconds. Hold your breath for 7 seconds. Exhale completely through your mouth for 8 seconds, making a whoosh sound. Repeat this cycle 4 times."),
   ("Box Breathing", "Inhale slowly through your nose for 4 seconds. Hold your breath for 4 seconds. Exhale through your mouth for 4 seconds. Hold your breath for 4 seconds. Repeat this square pattern for 1-2 minutes."),
   ("Diaphragmatic Breathing", "Place one hand on your chest and the other on your abdomen. Breathe in slowly through your nose, feeling your abdomen expand (not your chest). Exhale slowly through pursed lips. Focus on the movement of your abdomen rather than your chest."),
   ("Alternate Nostril Breathing", "Use your right thumb to close your right nostril. Inhale deeply through your left nostril. Close your left nostril with your ring finger, release your thumb, and exhale through your right nostril. Inhale through your right nostril, then close it, and exhale through your left. Repeat for 5-10 cycles."),
   ("Calming Breath", "Breathe in through your nose for 3 seconds. Breathe out through your mouth for 6 seconds (twice as long as the inhale). Focus on making your exhale slow and controlled. Continue for 2-3 minutes.")]

def generateBreathingExercise (r : ℚ) : Resource :=
  let e := jsArrayPick breathingExercises ("", "") r
  { type := ResourceType.breathing, content := e.2, title := some e.1, source := none, url := none }

def mindfulnessPractices : List (String × String) :=
  [("Body Scan", "Find a comfortable position sitting or lying down. Close your eyes and bring awareness to your body. Starting from your toes and moving upward, notice any sensations, tension, or discomfort in each part of your body. Don't try to change anything—simply observe with curiosity and without judgment."),
   ("Five Senses Grounding", "Take a moment to notice: 5 things you can see, 4 things you can touch, 3 things you can hear, 2 things you can smell, and 1 thing you can taste. This exercise helps bring you back to the present moment when feeling overwhelmed."),
   ("Mindful Walking", "Take a slow, deliberate walk. Pay attention to the sensation of your feet touching the ground, the movement of your legs, and your breathing. Notice the environment around you—colors, sounds, smells—without getting caught up in thoughts about them."),
   ("Loving-Kindness Meditation", "Close your eyes and bring to mind someone you care about. Silently repeat: 'May you be happy. May you be healthy. May you be safe. May you live with ease.' Then direct these wishes toward yourself, and gradually extend them to others, including those you find difficult."),
   ("Mindful Eating", "Choose a small piece of food (like a raisin or piece of chocolate). Examine it as if you've never seen it before. Notice its color, texture, and smell. Place it in your mouth without chewing, noticing the sensations. Slowly chew, fully experiencing the taste and texture."),
   ("Thought Clouds", "Imagine your thoughts as clouds passing across the sky of your mind. Don't try to push them away or hold onto them—simply observe them forming and dissolving. Notice the space between thoughts, the clear blue sky that's always present.")]

def generateMindfulnessPractice (r : ℚ) : Resource :=
  let p := jsArrayPick mindfulnessPractices ("", "") r
  { type := ResourceType.mindfulness, content := p.2, title := some p.1, source := none, url := none }

def anxietyStrategies : List (String × String) :=
  [("Progressive Muscle Relaxation", "Tense and then release each muscle group in your body, starting from your toes and working up to your head. Hold the tension for 5 seconds, then release for 10 seconds, noticing the difference between tension and relaxation."),
   ("Worry Time", "Schedule a specific 15-30 minute period each day as your 'worry time.' When worries arise outside this time, note them down and postpone thinking about them until your designated worry time. This helps contain anxiety to a specific timeframe."),
   ("Grounding Techniques", "When anxiety spikes, focus on concrete details in your environment. Name 5 blue things you can see, 4 textures you can feel, 3 sounds you can hear, 2 things you can smell, and 1 thing you can taste.")]

def depressionStrategies : List (String × String) :=
  [("Behavioral Activation", "Make a list of activities that typically bring you joy or satisfaction. Choose one small activity each day and complete it, even when motivation is low. Notice any positive feelings, however small, that result from taking action."),
   ("Gratitude Practice", "Each evening, write down three specific things you're grateful for from that day. They can be as simple as 'the warm sunshine' or 'the taste of my morning coffee.' This helps shift attention toward positive aspects of life."),
   ("Movement for Mood", "Commit to just 5 minutes of physical movement. Walk around your home, stretch, or dance to one song. Movement releases endorphins that can help lift your mood, even when done in small amounts.")]

def angerStrategies : List (String × String) :=
  [("Timeout Technique", "When you notice anger rising, give yourself permission to take a timeout. Remove yourself from the triggering situation for at least 20 minutes (the time it takes for stress hormones to dissipate) before responding."),
   ("Physical Release", "Channel the physical energy of anger into a constructive activity: go for a run, punch a pillow, tear up paper, or squeeze a stress ball. This helps discharge the bodily tension that accompanies anger."),
   ("Anger Journaling", "Write uncensored thoughts about what's making you angry. Include what happened, your thoughts about it, and the emotions underneath your anger (often hurt, fear, or disappointment). This helps process anger rather than acting on it impulsively.")]

def griefStrategies : List (String × String) :=
  [("Memory Box", "Create a special container to hold meaningful items connected to your loss. Include photos, letters, or objects that hold significance. This provides a tangible way to honor your connection while containing grief in a designated space."),
   ("Grief Journaling", "Write letters to the person or thing you've lost. Share your feelings, things you wish you'd said, or updates about your life. This maintains a sense of connection while acknowledging the reality of the loss."),
   ("Grief Rituals", "Create a simple ritual to honor your loss—light a candle, visit a meaningful place, play a special song, or cook a favorite meal. Rituals provide structure for expressing grief and commemorating what matters to you.")]

def neutralStrategies : List (String × String) :=
  [("Values Reflection", "Take time to identify your core values—what matters most to you in life. Then reflect on one small action you could take today that aligns with these values. This builds a sense of meaning and purpose in everyday choices."),
   ("Mindful Moments", "Set reminders to take three mindful breaths throughout your day. During these brief pauses, simply notice your breath and bodily sensations, allowing yourself to fully arrive in the present moment before continuing your activities."),
   ("Strength Inventory", "Make a list of your personal strengths and resources—qualities, skills, supportive relationships, and past successes. Review this list regularly, especially when facing challenges, to remind yourself of your capacity for resilience.")]

/-- The `strategies` table keyed by emotion; an emotion outside the table
(joy, confusion, neutral, or no emotion) falls back to the neutral list. -/
def strategiesFor : Option EmotionCategory → List (String × String)
  | some EmotionCategory.anxiety => anxietyStrategies
  | some EmotionCategory.depression => depressionStrategies
  | some EmotionCategory.anger => angerStrategies
  | some EmotionCategory.grief => griefStrategies
  | _ => neutralStrategies

def generateCopingStrategy (emotion : Option EmotionCategory) (r : ℚ) : Resource :=
  let s := jsArrayPick (strategiesFor emotion) ("", "") r
  { type := ResourceType.coping, content := s.2, title := some s.1, source := none, url := none }

structure MentalHealthResourceEntry where
  title : String
  content : String
  url : String
  contact : Option String
deriving DecidableEq, Repr

def mentalHealthResources : List MentalHealthResourceEntry :=
  [{ title := "Crisis Text Line",
     content := "Free 24/7 text-based mental health support and crisis intervention",
     url := "https://www.crisistextline.org/", contact := some "Text HOME to 741741" },
   { title := "National Suicide Prevention Lifeline",
     content := "Free and confidential support for people in distress",
     url := "https://988lifeline.org/", contact := some "Call or text 988" },
   { title := "SAMHSA's National Helpline",
     content := "Treatment referral and information service for individuals facing mental health or substance use disorders",
     url := "https://www.samhsa.gov/find-help/national-helpline", contact := some "1-800-662-HELP (4357)" },
   { title := "Psychology Today Therapist Finder",
     content := "Directory to find therapists, psychiatrists, treatment centers and support groups near you",
     url := "https://www.psychologytoday.com/us/therapists", contact := none },
   { title := "MentalHealth.gov",
     content := "U.S. government information and resources on mental health",
     url := "https://www.mentalhealth.gov/", contact := none },
   { title := "National Alliance on Mental Illness (NAMI)",
     content := "Nation's largest grassroots mental health organization dedicated to building better lives for Americans affected by mental illness",
     url := "https://www.nami.org/", contact := some "NAMI Helpline: 1-800-950-NAMI (6264)" },
   { title := "Headspace",
     content := "Meditation and mindfulness app with exercises for stress, anxiety, sleep, and focus",
     url := "https://www.headspace.com/", contact := none },
   { title := "Calm",
     content := "App for sleep, meditation and relaxation",
     url := "https://www.calm.com/", contact := none },
   { title := "7 Cups",
     content := "Online therapy and free emotional support",
     url := "https://www.7cups.com/", contact := none },
   { title := "Talkspace",
     content := "Online therapy platform connecting users with licensed therapists",
     url := "https://www.talkspace.com/", contact := none }]

def generateMentalHealthResource (r : ℚ) : Resource :=
  let e := jsArrayPick mentalHealthResources
    { title := "", content := "", url := "", contact := none } r
  { type := ResourceType.resource, content := e.content, title := some e.title,
    url := some e.url, source := e.contact }

def resourceTypeNames : List String :=
  ["quote", "breathing", "mindfulness", "coping", "resource"]

/-- `selectAppropriateResource`.  `rand i` is the `i`-th `Math.random()`
draw this call performs, in evaluation order: on the crisis path the single
generator draw; otherwise draw 0 is `randomFactor`, draw 1 the next
comparison or type pick, draw 2 the chosen generator's pick. -/
def selectAppropriateResource (rand : ℕ → ℚ)
    (sessionState : TherapySessionState) (messageCount : ℕ) : Option Resource :=
  if messageCount < 3 then none
  else if messageCount % 6 ≠ 0 then none
  else
    let dominantEmotion := sessionState.dominantEmotions.headD EmotionCategory.neutral
    if sessionState.crisisDetected then
      some (generateMentalHealthResource (rand 0))
    else
      let randomFactor := rand 0
      if dominantEmotion = EmotionCategory.anxiety ∧ randomFactor < 0.6 then
        some (if rand 1 < 0.5 then generateBreathingExercise (rand 2)
              else generateMindfulnessPractice (rand 2))
      else if dominantEmotion = EmotionCategory.depression ∧ randomFactor < 0.6 then
        some (if rand 1 < 0.5 then generateCopingStrategy (some EmotionCategory.depression) (rand 2)
              else generateQuote (rand 2))
      else if dominantEmotion = EmotionCategory.anger ∧ randomFactor < 0.6 then
        some (if rand 1 < 0.5 then generateBreathingExercise (rand 2)
              else generateCopingStrategy (some EmotionCategory.anger) (rand 2))
      else if dominantEmotion = EmotionCategory.grief ∧ randomFactor < 0.6 then
        some (generateCopingStrategy (some EmotionCategory.grief) (rand 1))
      else
        let resourceType := jsArrayPick resourceTypeNames "quote" (rand 1)
        if resourceType == "quote" then some (generateQuote (rand 2))
        else if resourceType == "breathing" then some (generateBreathingExercise (rand 2))
        else if resourceType == "mindfulness" then some (generateMindfulnessPractice (rand 2))
        else if resourceType == "coping" then some (generateCopingStrategy (some dominantEmotion) (rand 2))
        else if resourceType == "resource" then some (generateMentalHealthResource (rand 2))
        else some (generateQuote (rand 2))

end therapistUtils

/-! ## therapistUtils: response orchestration -/

namespace therapistUtils

/-- `Message` from `useConversation` as `generateTherapistResponse`
consumes it (only `type` and `text` are read). -/
inductive MessageType where
  | entry | response
deriving DecidableEq, Repr

structure Message where
  type : MessageType
  text : String
deriving DecidableEq, Repr

/-- The fixed safety string returned on the crisis path. -/
def crisisResponse : String :=
  "I'm concerned about what you're sharing. If you're in immediate danger, please call 988 or 911, or text HOME to 741741 to reach the Crisis Text Line. Your safety is the top priority. Would it be helpful to talk about some immediate coping strategies or resources available to you right now?"

/-- The `catch` fallback of `generateTherapistResponse`. -/
def basicFallbackResponse : String :=
  "I'm here to listen and support you. Could you tell me more about how you're feeling?"

/-- The Llama conversation built in the `try` block: the last 10 history
messages plus the current user message. -/
def buildLlamaMessages (conversationHistory : List Message) (userInput : String) :
    List llamaApiUtils.LlamaMessage :=
  (takeLast 10 conversationHistory).map (fun msg =>
    { role := if msg.type = MessageType.entry then "user" else "assistant",
      content := msg.text }) ++
  [{ role := "user", content := userInput }]

structure TherapistResponseResult where
  response : String
  updatedState : TherapySessionState
  /-- Instrumentation: whether the remote chat service was invoked
  (`sendLlamaRequest` / `fetch`).  The crisis path returns before the
  `try` block, so no request is made there. -/
  calledRemote : Bool

/-- `generateTherapistResponse`.  The random streams `r1 r2 r3` feed
`updateSessionState`; `env` is the remote-service environment.  The
`Except.error` arm is the `catch` block: it is reachable only if something
inside the `try` block throws, and `sendLlamaRequest` never does. -/
def generateTherapistResponse (r1 r2 r3 : ℕ → ℚ) (env : llamaApiUtils.LlamaEnv)
    (userInput : String) (sessionState : TherapySessionState)
    (conversationHistory : List Message) : TherapistResponseResult :=
  let updatedState := updateSessionState r1 r2 r3 sessionState userInput
  if updatedState.crisisDetected then
    { response := crisisResponse, updatedState := updatedState, calledRemote := false }
  else
    let llamaMessages := buildLlamaMessages conversationHistory userInput
    let systemPrompt := llamaApiUtils.createTherapySystemPrompt
    match llamaApiUtils.sendLlamaRequest env llamaMessages (some systemPrompt) with
    | Except.ok response =>
      { response := response, updatedState := updatedState, calledRemote := true }
    | Except.error _ =>
      { response := basicFallbackResponse, updatedState := updatedState, calledRemote := true }

end therapistUtils

/-! ## Statement-level definitions for the verified properties -/

/-- All values of a JS dictionary lie in `[0, 1]`. -/
abbrev dictInRange (d : Dict) : Prop := ∀ p ∈ d, 0 ≤ p.2 ∧ p.2 ≤ 1

namespace nlpUtils

/-- Every emotion intensity lies in `[0, 1]`. -/
abbrev emotionsInRange (e : Emotions) : Prop :=
  (0 ≤ e.anxiety ∧ e.anxiety ≤ 1) ∧ (0 ≤ e.sadness ∧ e.sadness ≤ 1) ∧
  (0 ≤ e.anger ∧ e.anger ≤ 1) ∧ (0 ≤ e.fear ∧ e.fear ≤ 1) ∧
  (0 ≤ e.joy ∧ e.joy ≤ 1) ∧ (0 ≤ e.surprise ∧ e.surprise ≤ 1) ∧
  (0 ≤ e.disgust ∧ e.disgust ≤ 1) ∧ (0 ≤ e.trust ∧ e.trust ≤ 1)

abbrev traitsInRange (t : PersonalityTraits) : Prop :=
  (0 ≤ t.openness ∧ t.openness ≤ 1) ∧
  (0 ≤ t.conscientiousness ∧ t.conscientiousness ≤ 1) ∧
  (0 ≤ t.extraversion ∧ t.extraversion ≤ 1) ∧
  (0 ≤ t.agreeableness ∧ t.agreeableness ≤ 1) ∧
  (0 ≤ t.neuroticism ∧ t.neuroticism ≤ 1)

abbrev styleInRange (c : CommunicationStyle) : Prop :=
  (0 ≤ c.verbose ∧ c.verbose ≤ 1) ∧ (0 ≤ c.emotional ∧ c.emotional ≤ 1) ∧
  (0 ≤ c.analytical ∧ c.analytical ≤ 1) ∧ (0 ≤ c.concrete ∧ c.concrete ≤ 1) ∧
  (0 ≤ c.abstract ∧ c.abstract ≤ 1)

/-- The numeric scalar fields of a profile named by the convexity
invariant: personality traits, communication-style axes, interest levels
and concern levels, all in `[0, 1]`. -/
abbrev profileInRange (P : UserProfile) : Prop :=
  traitsInRange P.personalityTraits ∧ styleInRange P.communicationStyle ∧
  dictInRange P.interests ∧ dictInRange P.concerns

end nlpUtils

namespace therapistUtils

/-- One processed user turn: the three random streams of its
`updateSessionState` call and the submitted text. -/
structure SessionTurn where
  r1 : ℕ → ℚ
  r2 : ℕ → ℚ
  r3 : ℕ → ℚ
  input : String

/-- `updateSessionState` applied sequentially over a list of turns. -/
def runSession (S : TherapySessionState) (turns : List SessionTurn) : TherapySessionState :=
  turns.foldl (fun s t => updateSessionState t.r1 t.r2 t.r3 s t.input) S

end therapistUtils

/-! ## Theorems -/

/-- Single-step depth increment, used by the session-depth claim. -/
theorem updateSessionState_sessionDepth (r1 r2 r3 : ℕ → ℚ)
    (S : therapistUtils.TherapySessionState) (input : String) :
    (therapistUtils.updateSessionState r1 r2 r3 S input).sessionDepth = S.sessionDepth + 1 := rfl

/-- C3: for every initial session state and every sequence of N input
texts, N sequential `updateSessionState` calls yield sessionDepth equal to
the initial value plus N, regardless of content; each single call
increments sessionDepth exactly once (so it never decreases). -/
theorem sessionDepth_increments_once_per_turn (S : therapistUtils.TherapySessionState)
    (turns : List therapistUtils.SessionTurn) :
    (therapistUtils.runSession S turns).sessionDepth = S.sessionDepth + turns.length ∧
    ∀ r1 r2 r3 input,
      (therapistUtils.updateSessionState r1 r2 r3 S input).sessionDepth = S.sessionDepth + 1 := by
  constructor
  · induction turns generalizing S with
    | nil => simp [therapistUtils.runSession]
    | cons t ts ih =>
      have h : therapistUtils.runSession S (t :: ts) =
          therapistUtils.runSession
            (therapistUtils.updateSessionState t.r1 t.r2 t.r3 S t.input) ts := rfl
      rw [h, ih, updateSessionState_sessionDepth]
      simp
      omega
  · intro r1 r2 r3 input
    exact updateSessionState_sessionDepth r1 r2 r3 S input

/-- The crisis flag stored by `updateSessionState` is exactly the fresh
crisis test on the current input. -/
theorem updateSessionState_crisisDetected (r1 r2 r3 : ℕ → ℚ)
    (S : therapistUtils.TherapySessionState) (input : String) :
    (therapistUtils.updateSessionState r1 r2 r3 S input).crisisDetected =
      apiUtils.containsCrisisIndicators input := rfl

/-- C9: the crisis flag is recomputed each turn, not latched: for every
session state (in particular one with the flag set) and every input whose
lowercased text contains no crisis keyword substring, the updated state's
crisisDetected is false. -/
theorem crisis_flag_not_latched (r1 r2 r3 : ℕ → ℚ)
    (S : therapistUtils.TherapySessionState) (text : String)
    (h : ∀ k ∈ apiUtils.crisisKeywords, jsIncludes (jsToLower text) k = false) :
    (therapistUtils.updateSessionState r1 r2 r3 S text).crisisDetected = false := by
  rw [updateSessionState_crisisDetected]
  unfold apiUtils.containsCrisisIndicators
  simp only [List.any_eq_false]
  intro k hk
  simp [h k hk]

/-- Witness for C9: a state that entered crisis on a previous turn is
cleared by the harmless input "hello". -/
theorem crisis_flag_not_latched_witness :
    (therapistUtils.updateSessionState (fun _ => 0) (fun _ => 0) (fun _ => 0)
      { therapistUtils.createInitialSessionState with crisisDetected := true }
      "hello").crisisDetected = false :=
  crisis_flag_not_latched (fun _ => 0) (fun _ => 0) (fun _ => 0)
    { therapistUtils.createInitialSessionState with crisisDetected := true }
    "hello" (by decide)

/-- C1: whenever the crisis flag is set after `updateSessionState` runs on
the user's turn, `generateTherapistResponse` returns the fixed safety
string (which contains "988") and never invokes the remote chat service;
and crisis detection fires on the input "I want to end my life.". -/
theorem crisis_short_circuits_remote (r1 r2 r3 : ℕ → ℚ)
    (env : llamaApiUtils.LlamaEnv) (S : therapistUtils.TherapySessionState)
    (input : String) (hist : List therapistUtils.Message)
    (h : (therapistUtils.updateSessionState r1 r2 r3 S input).crisisDetected = true) :
    (therapistUtils.generateTherapistResponse r1 r2 r3 env input S hist).response =
      therapistUtils.crisisResponse ∧
    (therapistUtils.generateTherapistResponse r1 r2 r3 env input S hist).calledRemote = false ∧
    jsIncludes therapistUtils.crisisResponse "988" = true ∧
    apiUtils.containsCrisisIndicators "I want to end my life." = true := by
  refine ⟨?_, ?_, by decide, by decide⟩ <;>
    simp [therapistUtils.generateTherapistResponse, h]

/-- Witness for C1: on the input "I want to end my life." the orchestrator
answers with the fixed safety string and does not call the remote model. -/
theorem crisis_short_circuits_remote_witness :
    (therapistUtils.generateTherapistResponse (fun _ => 0) (fun _ => 0) (fun _ => 0)
        { apiKey := none, fetchOutcome := fun _ => none }
        "I want to end my life." therapistUtils.createInitialSessionState []).response =
      therapistUtils.crisisResponse ∧
    (therapistUtils.generateTherapistResponse (fun _ => 0) (fun _ => 0) (fun _ => 0)
        { apiKey := none, fetchOutcome := fun _ => none }
        "I want to end my life." therapistUtils.createInitialSessionState []).calledRemote = false ∧
    jsIncludes therapistUtils.crisisResponse "988" = true ∧
    apiUtils.containsCrisisIndicators "I want to end my life." = true :=
  crisis_short_circuits_remote (fun _ => 0) (fun _ => 0) (fun _ => 0)
    { apiKey := none, fetchOutcome := fun _ => none }
    therapistUtils.createInitialSessionState "I want to end my life." [] (by decide)

/-- C10: `sendLlamaRequest` always resolves (never rejects or throws to
its caller); on every failure path — missing/empty API key, rejected
fetch, non-2xx HTTP response, malformed body, or a body with no choices —
it resolves to the single fixed fallback string; and consequently a
non-crisis `generateTherapistResponse` answers exactly with the resolved
value of `sendLlamaRequest`, never through its own catch fallback. -/
theorem sendLlamaRequest_never_rejects (env : llamaApiUtils.LlamaEnv)
    (messages : List llamaApiUtils.LlamaMessage) (systemPrompt : Option String) :
    (∃ s, llamaApiUtils.sendLlamaRequest env messages systemPrompt = Except.ok s) ∧
    ((llamaApiUtils.keyFalsy env.apiKey = true ∨
      env.fetchOutcome (llamaApiUtils.conversationHistoryOf systemPrompt messages) = none ∨
      (∃ r, env.fetchOutcome (llamaApiUtils.conversationHistoryOf systemPrompt messages) = some r ∧
        (r.ok = false ∨ r.json = none ∨ r.json = some { choices := [] }))) →
      llamaApiUtils.sendLlamaRequest env messages systemPrompt =
        Except.ok llamaApiUtils.fallbackMessage) ∧
    (∀ r1 r2 r3 S input hist,
      (therapistUtils.updateSessionState r1 r2 r3 S input).crisisDetected = false →
      ∃ s, llamaApiUtils.sendLlamaRequest env
          (therapistUtils.buildLlamaMessages hist input)
          (some llamaApiUtils.createTherapySystemPrompt) = Except.ok s ∧
        (therapistUtils.generateTherapistResponse r1 r2 r3 env input S hist).response = s) := by
  have total : ∀ (e : llamaApiUtils.LlamaEnv) ms sp,
      ∃ s, llamaApiUtils.sendLlamaRequest e ms sp = Except.ok s := by
    intro e ms sp
    unfold llamaApiUtils.sendLlamaRequest
    cases llamaApiUtils.sendLlamaRequestBody e ms sp with
    | ok s => exact ⟨s, rfl⟩
    | error _ => exact ⟨llamaApiUtils.fallbackMessage, rfl⟩
  refine ⟨total env messages systemPrompt, ?_, ?_⟩
  · intro hfail
    unfold llamaApiUtils.sendLlamaRequest llamaApiUtils.sendLlamaRequestBody
    rcases hfail with hkey | hfetch | ⟨r, hr, hcase⟩
    · simp [hkey]
    · rcases hk : llamaApiUtils.keyFalsy env.apiKey with _ | _
      · simp [hk, hfetch]
      · simp [hk]
    · rcases hk : llamaApiUtils.keyFalsy env.apiKey with _ | _
      · rcases hcase with hok | hjson | hempty
        · simp [hk, hr, hok]
        · rcases hok : r.ok with _ | _ <;> simp [hk, hr, hjson, hok]
        · rcases hok : r.ok with _ | _
          · simp [hk, hr, hok]
          · simp [hk, hr, hok, hempty]
      · simp [hk]
  · intro r1 r2 r3 S input hist hnc
    obtain ⟨s, hs⟩ := total env (therapistUtils.buildLlamaMessages hist input)
      (some llamaApiUtils.createTherapySystemPrompt)
    refine ⟨s, hs, ?_⟩
    simp [therapistUtils.generateTherapistResponse, hnc, hs]

/-- Witness for C10: with no API key configured the call resolves to the
fixed fallback string. -/
theorem sendLlamaRequest_never_rejects_witness :
    llamaApiUtils.sendLlamaRequest { apiKey := none, fetchOutcome := fun _ => none } [] none =
      Except.ok llamaApiUtils.fallbackMessage :=
  (sendLlamaRequest_never_rejects { apiKey := none, fetchOutcome := fun _ => none } [] none).2.1
    (Or.inl rfl)

/-- C8: the resource selector returns null for turn counts 0, 1 and 2 and
for every turn count not divisible by 6; and on every qualifying turn
(count at least 3 and divisible by 6) with the crisis flag set it returns
a mental-health (crisis contact) resource, never null and never another
resource type. -/
theorem selectAppropriateResource_gating (rand : ℕ → ℚ)
    (S : therapistUtils.TherapySessionState) (n : ℕ) :
    ((n < 3 ∨ n % 6 ≠ 0) → therapistUtils.selectAppropriateResource rand S n = none) ∧
    (3 ≤ n → n % 6 = 0 → S.crisisDetected = true →
      ∃ r, therapistUtils.selectAppropriateResource rand S n = some r ∧
        r.type = therapistUtils.ResourceType.resource) := by
  constructor
  · intro h
    unfold therapistUtils.selectAppropriateResource
    rcases h with h3 | h6
    · simp [h3]
    · by_cases h3 : n < 3
      · simp [h3]
      · simp [h3, h6]
  · intro h3 h6 hc
    have h3' : ¬ n < 3 := by omega
    refine ⟨therapistUtils.generateMentalHealthResource (rand 0), ?_, rfl⟩
    unfold therapistUtils.selectAppropriateResource
    simp [h3', h6, hc]

/-- Witness for C8: with the crisis flag set, turn 2 yields null and turn
6 yields a mental-health resource. -/
theorem selectAppropriateResource_gating_witness :
    therapistUtils.selectAppropriateResource (fun _ => 0)
      { therapistUtils.createInitialSessionState with crisisDetected := true } 2 = none ∧
    ∃ r, therapistUtils.selectAppropriateResource (fun _ => 0)
        { therapistUtils.createInitialSessionState with crisisDetected := true } 6 = some r ∧
      r.type = therapistUtils.ResourceType.resource :=
  ⟨(selectAppropriateResource_gating (fun _ => 0)
      { therapistUtils.createInitialSessionState with crisisDetected := true } 2).1
      (Or.inl (by norm_num)),
   (selectAppropriateResource_gating (fun _ => 0)
      { therapistUtils.createInitialSessionState with crisisDetected := true } 6).2
      (by norm_num) (by norm_num) rfl⟩

/-- The emotion accumulator stays nonnegative: it starts at 0 and only
ever adds 0.2. -/
theorem emotion_foldl_nonneg (lowerText : String) (ws : List String) :
    ∀ acc : ℚ, 0 ≤ acc →
      0 ≤ ws.foldl (fun acc w => if jsIncludes lowerText w then acc + 0.2 else acc) acc := by
  induction ws with
  | nil => intro acc h; simpa using h
  | cons w ws ih =>
    intro acc h
    by_cases hw : jsIncludes lowerText w = true
    · simp only [List.foldl, hw, if_true]
      exact ih (acc + 0.2) (by linarith [show (0:ℚ) ≤ 0.2 by norm_num])
    · simp only [List.foldl, hw, if_false]
      exact ih acc h

theorem emotionScore_nonneg (lowerText : String) (ws : List String) :
    0 ≤ nlpUtils.emotionScore lowerText ws := by
  unfold nlpUtils.emotionScore
  exact le_min (emotion_foldl_nonneg lowerText ws 0 le_rfl) (by norm_num)

theorem emotionScore_le_one (lowerText : String) (ws : List String) :
    nlpUtils.emotionScore lowerText ws ≤ 1 :=
  min_le_right _ _

/-- Every emotion intensity `detectEmotions` produces lies in `[0, 1]`. -/
theorem detectEmotions_range (text : String) :
    nlpUtils.emotionsInRange (nlpUtils.detectEmotions text) :=
  ⟨⟨emotionScore_nonneg _ _, emotionScore_le_one _ _⟩,
   ⟨emotionScore_nonneg _ _, emotionScore_le_one _ _⟩,
   ⟨emotionScore_nonneg _ _, emotionScore_le_one _ _⟩,
   ⟨emotionScore_nonneg _ _, emotionScore_le_one _ _⟩,
   ⟨emotionScore_nonneg _ _, emotionScore_le_one _ _⟩,
   ⟨emotionScore_nonneg _ _, emotionScore_le_one _ _⟩,
   ⟨emotionScore_nonneg _ _, emotionScore_le_one _ _⟩,
   ⟨emotionScore_nonneg _ _, emotionScore_le_one _ _⟩⟩

/-- The sentiment ratio `(pos − neg) / (pos + neg)` (0 when no sentiment
word was found) lies in `[-1, 1]`. -/
theorem sentiment_ratio_range (p n : ℕ) :
    -1 ≤ (if p + n = 0 then (0:ℚ) else ((p:ℚ) - (n:ℚ)) / (((p + n : ℕ)):ℚ)) ∧
    (if p + n = 0 then (0:ℚ) else ((p:ℚ) - (n:ℚ)) / (((p + n : ℕ)):ℚ)) ≤ 1 := by
  by_cases h : p + n = 0
  · simp [h]
  · have hpos : (0:ℚ) < ((p + n : ℕ):ℚ) := by
      have : 0 < p + n := Nat.pos_of_ne_zero h
      exact_mod_cast this
    simp only [if_neg h]
    constructor
    · rw [le_div_iff₀ hpos]
      push_cast
      nlinarith [Nat.cast_nonneg (α := ℚ) p, Nat.cast_nonneg (α := ℚ) n]
    · rw [div_le_one₀ hpos]
      push_cast
      nlinarith [Nat.cast_nonneg (α := ℚ) p, Nat.cast_nonneg (α := ℚ) n]

theorem analyzeSentiment_score_range (text : String) :
    -1 ≤ (nlpUtils.analyzeSentiment text).score ∧
    (nlpUtils.analyzeSentiment text).score ≤ 1 :=
  sentiment_ratio_range _ _

/-- C5: for every input text (and every key-phrase randomness), the
sentiment score lies in [-1, 1] and every emotion intensity lies in
[0, 1]. -/
theorem analyzeText_score_and_emotions_in_range (rand : ℕ → ℚ) (text : String) :
    -1 ≤ (nlpUtils.analyzeText rand text).sentiment.score ∧
    (nlpUtils.analyzeText rand text).sentiment.score ≤ 1 ∧
    nlpUtils.emotionsInRange (nlpUtils.analyzeText rand text).emotions := by
  have h1 : (nlpUtils.analyzeText rand text).sentiment = nlpUtils.analyzeSentiment text := rfl
  have h2 : (nlpUtils.analyzeText rand text).emotions = nlpUtils.detectEmotions text := rfl
  rw [h1, h2]
  exact ⟨(analyzeSentiment_score_range text).1, (analyzeSentiment_score_range text).2,
    detectEmotions_range text⟩


theorem weightedAverage_nonneg {a b : ℚ} (ha : 0 ≤ a) (hb : 0 ≤ b) :
    0 ≤ nlpUtils.weightedAverage a b := by
  unfold nlpUtils.weightedAverage
  nlinarith

theorem weightedAverage_le_one {a b : ℚ} (ha : a ≤ 1) (hb : b ≤ 1) :
    nlpUtils.weightedAverage a b ≤ 1 := by
  unfold nlpUtils.weightedAverage
  nlinarith

theorem verboseTarget_range (A : nlpUtils.NLPAnalysisResult) :
    0 ≤ nlpUtils.verboseTarget A ∧ nlpUtils.verboseTarget A ≤ 1 := by
  unfold nlpUtils.verboseTarget
  split_ifs <;> norm_num

theorem emotionalTarget_range (A : nlpUtils.NLPAnalysisResult) :
    0 ≤ nlpUtils.emotionalTarget A ∧ nlpUtils.emotionalTarget A ≤ 1 := by
  unfold nlpUtils.emotionalTarget
  split_ifs <;> norm_num

theorem analyticalTarget_range (A : nlpUtils.NLPAnalysisResult) :
    0 ≤ nlpUtils.analyticalTarget A ∧ nlpUtils.analyticalTarget A ≤ 1 := by
  unfold nlpUtils.analyticalTarget
  split_ifs <;> norm_num

theorem dictGet_getD_range {d : Dict} (hd : dictInRange d) (k : String) :
    0 ≤ (dictGet d k).getD 0 ∧ (dictGet d k).getD 0 ≤ 1 := by
  unfold dictGet
  cases hfind : d.find? (fun p => p.1 == k) with
  | none => simp
  | some p =>
    have hp := List.mem_of_find?_eq_some hfind
    simpa using hd p hp

theorem dictSet_range {d : Dict} (hd : dictInRange d) (k : String) {v : ℚ}
    (hv0 : 0 ≤ v) (hv1 : v ≤ 1) : dictInRange (dictSet d k v) := by
  unfold dictSet
  split_ifs with h
  · intro p hp
    obtain ⟨q, hq, hpq⟩ := List.mem_map.mp hp
    by_cases hk : (q.1 == k) = true
    · rw [if_pos hk] at hpq
      subst hpq
      exact ⟨hv0, hv1⟩
    · rw [if_neg hk] at hpq
      subst hpq
      exact hd q hq
  · intro p hp
    rcases List.mem_append.mp hp with hmem | hmem
    · exact hd p hmem
    · simp only [List.mem_singleton] at hmem
      subst hmem
      exact ⟨hv0, hv1⟩

/-- Fold preservation of an invariant, with access to list membership. -/
theorem foldl_preserve_mem {α β : Type} (f : β → α → β) (Q : β → Prop) :
    ∀ (l : List α) (b : β), (∀ b' a, a ∈ l → Q b' → Q (f b' a)) → Q b →
      Q (l.foldl f b) := by
  intro l
  induction l with
  | nil => intro b _ hb; simpa using hb
  | cons a as ih =>
    intro b h hb
    simp only [List.foldl]
    exact ih _ (fun b' x hx => h b' x (List.mem_cons_of_mem a hx))
      (h b a (List.mem_cons_self a as) hb)

/-- Every entry of `Object.entries` of an in-range emotion record has its
intensity in [0,1]. -/
theorem emotionEntries_range {e : nlpUtils.Emotions}
    (he : nlpUtils.emotionsInRange e) :
    ∀ p ∈ nlpUtils.emotionEntries e, 0 ≤ p.2 ∧ p.2 ≤ 1 := by
  obtain ⟨h1, h2, h3, h4, h5, h6, h7, h8⟩ := he
  intro p hp
  simp only [nlpUtils.emotionEntries, List.mem_cons, List.not_mem_nil, or_false] at hp
  rcases hp with rfl | rfl | rfl | rfl | rfl | rfl | rfl | rfl <;> assumption

theorem interestsStep_range {d : Dict} (hd : dictInRange d) (topic : String) :
    dictInRange (nlpUtils.interestsStep d topic) := by
  unfold nlpUtils.interestsStep
  obtain ⟨hg0, hg1⟩ := dictGet_getD_range hd topic
  split_ifs with h
  · exact dictSet_range hd topic (by norm_num) (by norm_num)
  · exact dictSet_range hd topic
      (weightedAverage_nonneg hg0 (by norm_num))
      (weightedAverage_le_one hg1 (by norm_num))

theorem concernsStep_range {d : Dict} (hd : dictInRange d) {entry : String × ℚ}
    (hentry : 0 ≤ entry.2 ∧ entry.2 ≤ 1) :
    dictInRange (nlpUtils.concernsStep d entry) := by
  unfold nlpUtils.concernsStep
  obtain ⟨hg0, hg1⟩ := dictGet_getD_range hd entry.1
  split_ifs with h1 h2
  · exact dictSet_range hd entry.1 hentry.1 hentry.2
  · exact dictSet_range hd entry.1
      (weightedAverage_nonneg hg0 hentry.1)
      (weightedAverage_le_one hg1 hentry.2)
  · exact hd

theorem updateTraits_range {pt : nlpUtils.PersonalityTraits}
    (h : nlpUtils.traitsInRange pt) (A : nlpUtils.NLPAnalysisResult) :
    nlpUtils.traitsInRange (nlpUtils.updateTraits pt A) := by
  obtain ⟨ho, hc, he, ha, hn⟩ := h
  unfold nlpUtils.updateTraits
  split_ifs <;>
    exact ⟨⟨by first
        | exact ho.1
        | exact weightedAverage_nonneg ho.1 (by norm_num), by first
        | exact ho.2
        | exact weightedAverage_le_one ho.2 (by norm_num)⟩,
      hc,
      ⟨by first
        | exact he.1
        | exact weightedAverage_nonneg he.1 (by norm_num), by first
        | exact he.2
        | exact weightedAverage_le_one he.2 (by norm_num)⟩,
      ⟨by first
        | exact ha.1
        | exact weightedAverage_nonneg ha.1 (by norm_num), by first
        | exact ha.2
        | exact weightedAverage_le_one ha.2 (by norm_num)⟩,
      hn⟩

theorem updateStyle_range {cs : nlpUtils.CommunicationStyle}
    (h : nlpUtils.styleInRange cs) (A : nlpUtils.NLPAnalysisResult) :
    nlpUtils.styleInRange (nlpUtils.updateStyle cs A) := by
  obtain ⟨hv, he, ha, hc, hab⟩ := h
  exact ⟨⟨weightedAverage_nonneg hv.1 (verboseTarget_range A).1,
      weightedAverage_le_one hv.2 (verboseTarget_range A).2⟩,
    ⟨weightedAverage_nonneg he.1 (emotionalTarget_range A).1,
      weightedAverage_le_one he.2 (emotionalTarget_range A).2⟩,
    ⟨weightedAverage_nonneg ha.1 (analyticalTarget_range A).1,
      weightedAverage_le_one ha.2 (analyticalTarget_range A).2⟩,
    hc, hab⟩

/-- Core of the convexity invariant: `updateUserProfile` keeps every
personality trait, communication-style axis, interest level and concern
level inside [0,1], provided the analysis' emotion intensities are. -/
theorem updateUserProfile_range_all (P : nlpUtils.UserProfile)
    (A : nlpUtils.NLPAnalysisResult) (t : String)
    (hP : nlpUtils.profileInRange P)
    (hE : nlpUtils.emotionsInRange A.emotions) :
    nlpUtils.profileInRange (nlpUtils.updateUserProfile P A t) := by
  obtain ⟨hT, hS, hI, hC⟩ := hP
  refine ⟨updateTraits_range hT A, updateStyle_range hS A, ?_, ?_⟩
  · exact foldl_preserve_mem nlpUtils.interestsStep dictInRange A.topics P.interests
      (fun d topic _ hd => interestsStep_range hd topic) hI
  · exact foldl_preserve_mem nlpUtils.concernsStep dictInRange
      (nlpUtils.emotionEntries A.emotions) P.concerns
      (fun d entry hmem hd => concernsStep_range hd (emotionEntries_range hE entry hmem)) hC

/-- C4: for every profile whose numeric scalar fields lie in [0,1] and
every analysis produced by `analyzeText`, every numeric scalar field of
the updated profile again lies in [0,1]: each update is a convex
`weightedAverage` blend (weight 0.3) of operands in [0,1], or a seed value
in [0,1]. -/
theorem updateUserProfile_preserves_unit_interval (P : nlpUtils.UserProfile)
    (rand : ℕ → ℚ) (analyzed userText : String)
    (hP : nlpUtils.profileInRange P) :
    nlpUtils.profileInRange
      (nlpUtils.updateUserProfile P (nlpUtils.analyzeText rand analyzed) userText) := by
  refine updateUserProfile_range_all P _ userText hP ?_
  have h : (nlpUtils.analyzeText rand analyzed).emotions =
      nlpUtils.detectEmotions analyzed := rfl
  rw [h]
  exact detectEmotions_range analyzed

/-- Witness for C4: the initial profile updated with the analysis of
"hi" stays inside [0,1] everywhere. -/
theorem updateUserProfile_preserves_unit_interval_witness :
    nlpUtils.profileInRange
      (nlpUtils.updateUserProfile nlpUtils.createInitialUserProfile
        (nlpUtils.analyzeText (fun _ => 0) "hi") "hi") :=
  updateUserProfile_preserves_unit_interval nlpUtils.createInitialUserProfile
    (fun _ => 0) "hi" "hi" (by decide!)

/-- C2 (refuting evaluation): `{ ...currentProfile }` is a shallow copy,
so `updateUserProfile` writes through the communicationStyle reference it
shares with the caller.  Updating the initial profile with the analysis of
"hi" changes the caller-visible verbose axis from 0.5 to
0.5·0.7 + 0.2·0.3 = 0.41: the argument profile is not unchanged after the
call. -/
theorem updateUserProfile_mutates_caller_profile :
    ((nlpUtils.updateUserProfileHeap nlpUtils.initialProfileHeap nlpUtils.initialProfileRefs
        (nlpUtils.analyzeText (fun _ => 0) "hi") "hi").1.communicationStyleAt
      nlpUtils.initialProfileRefs.communicationStyleRef).verbose = 41/100 ∧
    (nlpUtils.initialProfileHeap.communicationStyleAt
      nlpUtils.initialProfileRefs.communicationStyleRef).verbose = 1/2 ∧
    ((41 : ℚ)/100 = 1/2 → False) := by
  refine ⟨by decide!, by decide!, by norm_num⟩

/-- C6 (evaluation at the failing input): on the empty string the analyzer
does not throw and its sentiment score is the guarded 0, but the magnitude
is the unguarded 0/0, i.e. NaN — not a well-defined zero number. -/
theorem analyzeText_empty_text_magnitude_nan :
    (nlpUtils.analyzeText (fun _ => 0) "").sentiment.score = 0 ∧
    (nlpUtils.analyzeText (fun _ => 0) "").sentiment.magnitude = JSNum.nan ∧
    JSNum.nan ≠ JSNum.val 0 := by
  refine ⟨by decide!, by decide!, by decide⟩

/-- C7 (counterexample): for the input "I feel so anxious about work and
can't sleep" the claim fails: the detected anxiety intensity 0.2 does not
exceed the 0.4 threshold, so the dominant-emotion classification does not
include anxiety and approachUsed is not ['cbt','mindfulness']. -/
theorem scenario_anxious_work_claim_false :
    ((therapistUtils.updateSessionState (fun _ => 0) (fun _ => 0) (fun _ => 0)
        therapistUtils.createInitialSessionState
        "I feel so anxious about work and can't sleep").dominantEmotions.contains
      therapistUtils.EmotionCategory.anxiety) = false ∧
    (therapistUtils.updateSessionState (fun _ => 0) (fun _ => 0) (fun _ => 0)
        therapistUtils.createInitialSessionState
        "I feel so anxious about work and can't sleep").approachUsed ≠
      [therapistUtils.TherapyApproach.cbt, therapistUtils.TherapyApproach.mindfulness] := by
  refine ⟨by decide!, by decide!⟩

/-- C7 (amended): for that input, one `updateSessionState` step yields
topics including "work" and anxiety intensity 0.2 (> 0, matched on
"anxious"), but the dominant-emotion classification is ['neutral'] — 0.2
does not exceed the 0.4 threshold — and approachUsed becomes the default
['supportive', 'solution-focused'].  (None of these fields depends on the
key-phrase random draws; the streams are instantiated at zero.) -/
theorem scenario_anxious_work_actual :
    (therapistUtils.updateSessionState (fun _ => 0) (fun _ => 0) (fun _ => 0)
        therapistUtils.createInitialSessionState
        "I feel so anxious about work and can't sleep").recentTopics.contains "work" = true ∧
    (nlpUtils.analyzeText (fun _ => 0) "I feel so anxious about work and can't sleep").emotions.anxiety
      = 1/5 ∧
    (0 : ℚ) < 1/5 ∧
    (therapistUtils.updateSessionState (fun _ => 0) (fun _ => 0) (fun _ => 0)
        therapistUtils.createInitialSessionState
        "I feel so anxious about work and can't sleep").dominantEmotions =
      [therapistUtils.EmotionCategory.neutral] ∧
    (therapistUtils.updateSessionState (fun _ => 0) (fun _ => 0) (fun _ => 0)
        therapistUtils.createInitialSessionState
        "I feel so anxious about work and can't sleep").approachUsed =
      [therapistUtils.TherapyApproach.supportive, therapistUtils.TherapyApproach.solutionFocused]
    := by
  refine ⟨by decide!, by decide!, by norm_num, by decide!, by decide!⟩
